import Mathlib

/-!
Verification of the drivetemp ATA/SATA temperature driver (two source
revisions: `satatemp.c` and `smarttemp.c`) against its natural-language
specification.  The C code is shallowly embedded: 512-byte log/attribute
pages become functions `Nat → Nat` read through a `byte` accessor that
truncates to `u8`; the per-device capability record and the ATA
pass-through command block become structures; command execution against
the device is abstracted by environments that carry the response page (or
a transport failure) for each command the driver can issue.

Error-code mapping used throughout (the C driver returns negative errno
values): `-ENODEV ↦ NotADevice`, transport failure from
`scsi_execute_req ↦ CommandFailed`, `-EIO ↦ ChecksumError`,
`-ENXIO ↦ NoSensor`, `-EINVAL ↦ InvalidArg`; `UnsupportedAttribute`
stands for a request for a hwmon attribute that `is_visible` hid.
-/

/-- Byte read from a 512-byte page: the C buffers are `u8[512]`, so every
access truncates to 8 bits. -/
def byte (buf : Nat → Nat) (i : Nat) : Nat := buf i % 256

/-- Two's-complement reinterpretation of a byte, the C `(char)`/`(s8)` cast
applied to `u8` data in `satatemp.c`/`smarttemp.c`. -/
def s8 (b : Nat) : Int := if b % 256 < 128 then (b % 256 : Int) else (b % 256 : Int) - 256

/-- INVALID_TEMP sentinel from both drivers. -/
def INVALID_TEMP : Nat := 0x80

/-- Errors surfaced by the driver (see the errno mapping in the header). -/
inductive DriverErr where
  | NotADevice
  | CommandFailed
  | ChecksumError
  | NoSensor
  | UnsupportedAttribute
  | InvalidArg
deriving DecidableEq, Repr

/-- Equality of `Except` results is decidable when both components are,
so concrete driver outcomes can be checked by `decide`. -/
instance {ε α : Type} [DecidableEq ε] [DecidableEq α] : DecidableEq (Except ε α)
  | .error a, .error b =>
    if h : a = b then .isTrue (by rw [h]) else .isFalse (by simp [h])
  | .error _, .ok _ => .isFalse (by simp)
  | .ok _, .error _ => .isFalse (by simp)
  | .ok a, .ok b =>
    if h : a = b then .isTrue (by rw [h]) else .isFalse (by simp [h])

/-- Reporting strategy selected by the probe: `sct` corresponds to
`have_sct_temp`/`get_temp == satatemp_get_scttemp`, `smart` to the SMART
fallback. -/
inductive TempMode where
  | sct
  | smart
deriving DecidableEq, Repr

/-- The hwmon temperature attributes the driver handles. -/
inductive Metric where
  | input
  | lowest
  | highest
  | min
  | max
  | lcrit
  | crit
deriving DecidableEq, Repr

/-- Per-device capability record (`struct satatemp_data`/`smarttemp_data`
minus the kernel plumbing).  `kzalloc` zero-fills the struct, hence the
defaults: all flags false, all cached temperatures 0, fallback mode. -/
structure CapabilityRecord where
  mode : TempMode := .smart
  have_temp_lowest : Bool := false
  have_temp_highest : Bool := false
  have_temp_min : Bool := false
  have_temp_max : Bool := false
  have_temp_lcrit : Bool := false
  have_temp_crit : Bool := false
  temp_min : Int := 0
  temp_max : Int := 0
  temp_lcrit : Int := 0
  temp_crit : Int := 0
deriving DecidableEq, Repr

/-- The zero-filled record a freshly allocated device starts from. -/
def initRecord : CapabilityRecord := {}

/-! ## CommandBuilder -/

/-- DMA direction passed to `scsi_execute_req`. -/
inductive DmaDir where
  | toDevice
  | fromDevice
deriving DecidableEq, Repr

def ATA_16 : Nat := 0x85
def ATA_CMD_SMART : Nat := 0xb0
def ATA_SMART_READ_VALUES : Nat := 0xd0
def SMART_READ_LOG : Nat := 0xd5
def SMART_WRITE_LOG : Nat := 0xd6
def ATA_SMART_LBAM_PASS : Nat := 0x4f
def ATA_SMART_LBAH_PASS : Nat := 0xc2
def SCT_STATUS_REQ_ADDR : Nat := 0xe0
def SCT_READ_LOG_ADDR : Nat := 0xe1

/-- The ATA_16 pass-through CDB fields the drivers assign (all other CDB
bytes are memset to zero): `opcode = scsi_cmd[0]`, `protocol = scsi_cmd[1]`,
`flags = scsi_cmd[2]`, `feature = scsi_cmd[4]` (the ATA features register),
`sector_count = scsi_cmd[6]`, `lba_low = scsi_cmd[8]`,
`lba_mid = scsi_cmd[10]`, `lba_high = scsi_cmd[12]`,
`command = scsi_cmd[14]` (the ATA command register). -/
structure AtaCmdBlock where
  opcode : Nat
  protocol : Nat
  flags : Nat
  feature : Nat
  sector_count : Nat
  lba_low : Nat
  lba_mid : Nat
  lba_high : Nat
  command : Nat
  dir : DmaDir
deriving DecidableEq, Repr

/-- `smarttemp_scsi_command`: direction decided by `feature == SMART_WRITE_LOG`. -/
def smarttemp_scsi_command (ata_command feature lba_low lba_mid lba_high : Nat) :
    AtaCmdBlock :=
  if feature = SMART_WRITE_LOG then
    { opcode := ATA_16, protocol := 5 <<< 1, flags := 0x06, feature := feature,
      sector_count := 1, lba_low := lba_low, lba_mid := lba_mid,
      lba_high := lba_high, command := ata_command, dir := .toDevice }
  else
    { opcode := ATA_16, protocol := 4 <<< 1, flags := 0x0e, feature := feature,
      sector_count := 1, lba_low := lba_low, lba_mid := lba_mid,
      lba_high := lba_high, command := ata_command, dir := .fromDevice }

/-- `satatemp_scsi_command`: direction decided by
`ata_command == ATA_CMD_SMART && feature == SMART_WRITE_LOG`. -/
def satatemp_scsi_command (ata_command feature lba_low lba_mid lba_high : Nat) :
    AtaCmdBlock :=
  if ata_command = ATA_CMD_SMART ∧ feature = SMART_WRITE_LOG then
    { opcode := ATA_16, protocol := 5 <<< 1, flags := 0x06, feature := feature,
      sector_count := 1, lba_low := lba_low, lba_mid := lba_mid,
      lba_high := lba_high, command := ata_command, dir := .toDevice }
  else
    { opcode := ATA_16, protocol := 4 <<< 1, flags := 0x0e, feature := feature,
      sector_count := 1, lba_low := lba_low, lba_mid := lba_mid,
      lba_high := lba_high, command := ata_command, dir := .fromDevice }

/-- `smarttemp_ata_command`: a SMART command with the 0x4f/0xc2 pass-through
markers in LBA mid/high. -/
def smarttemp_ata_command (feature select : Nat) : AtaCmdBlock :=
  smarttemp_scsi_command ATA_CMD_SMART feature select ATA_SMART_LBAM_PASS
    ATA_SMART_LBAH_PASS

/-- `satatemp_ata_command`. -/
def satatemp_ata_command (feature select : Nat) : AtaCmdBlock :=
  satatemp_scsi_command ATA_CMD_SMART feature select ATA_SMART_LBAM_PASS
    ATA_SMART_LBAH_PASS

/-! ## SmartDecoder -/

/-- The `u8` running checksum over all 512 bytes of the SMART attribute
page (`csum += buf[i]` with `u8 csum`). -/
def smart_checksum (buf : Nat → Nat) : Nat :=
  (List.range 512).foldl (fun c i => (c + byte buf i) % 256) 0

/-- Attribute id of the `i`-th 12-byte attribute record (`attr[2]`). -/
def attrId (buf : Nat → Nat) (i : Nat) : Nat := byte buf (i * 12 + 2)

/-- Low raw byte of the `i`-th 12-byte attribute record (`attr[7]`). -/
def attrRaw (buf : Nat → Nat) (i : Nat) : Nat := byte buf (i * 12 + 7)

/-- One scan step of the attribute loop, fuelled.  The C loop body tests
`id == 190` (record the raw byte, keep scanning) and `id == 194` (record
the raw byte and `break`); ids of 0 and every other id just `continue`,
which is the final branch here.  The two tests cannot both fire, so the
if-chain order is immaterial. -/
def smartScanAux (buf : Nat → Nat) : Nat → Nat → Option Nat → Option Nat
  | 0, _, acc => acc
  | n + 1, i, acc =>
    if attrId buf i = 194 then some (attrRaw buf i)
    else if attrId buf i = 190 then smartScanAux buf n (i + 1) (some (attrRaw buf i))
    else smartScanAux buf n (i + 1) acc

/-- The attribute scan over `nattrs = min(ATA_MAX_SMART_ATTRS, 512/12) = 30`
records, starting with no temperature found. -/
def smartScan (buf : Nat → Nat) : Option Nat := smartScanAux buf 30 0 none

/-- Body of `satatemp_get_smarttemp`/`smarttemp_read_smarttemp` after the
command executed: checksum-validate, scan, scale the accepted unsigned raw
byte by 1000. -/
def smart_decode (buf : Nat → Nat) : Except DriverErr Int :=
  if smart_checksum buf = 0 then
    match smartScan buf with
    | some raw => .ok ((raw : Int) * 1000)
    | none => .error .NoSensor
  else .error .ChecksumError

/-! ## SctDecoder: probe-time pieces -/

def SCT_STATUS_TEMP : Nat := 200
def SCT_STATUS_TEMP_LOWEST : Nat := 201
def SCT_STATUS_TEMP_HIGHEST : Nat := 202

/-- The four data-table limit assignments (`satatemp.c:347-355`,
`smarttemp.c:306-314`): each flag tests its own byte against the sentinel,
each cached value is the sign-converted byte scaled by 1000 and is written
unconditionally. -/
def applyDataTable (dbuf : Nat → Nat) (st : CapabilityRecord) : CapabilityRecord :=
  { st with
    have_temp_max := byte dbuf 6 != INVALID_TEMP,
    have_temp_crit := byte dbuf 7 != INVALID_TEMP,
    have_temp_min := byte dbuf 8 != INVALID_TEMP,
    have_temp_lcrit := byte dbuf 9 != INVALID_TEMP,
    temp_max := s8 (byte dbuf 6) * 1000,
    temp_crit := s8 (byte dbuf 7) * 1000,
    temp_min := s8 (byte dbuf 8) * 1000,
    temp_lcrit := s8 (byte dbuf 9) * 1000 }

/-! ## TemperatureSource: live reads -/

/-- Responses the device hands back for the two commands a live read can
issue; `.error` models a transport failure from `scsi_execute_req`. -/
structure ReadEnv where
  sctStatus : Except Unit (Nat → Nat)
  smartValues : Except Unit (Nat → Nat)

/-- `satatemp_get_scttemp`: re-issue SMART READ LOG at 0xe0, then convert
the byte at the metric's fixed offset with the `(char)` cast and scale by
1000; other attributes yield `-EINVAL`. -/
def satatemp_get_scttemp (env : ReadEnv) (attr : Metric) : Except DriverErr Int :=
  match env.sctStatus with
  | .error _ => .error .CommandFailed
  | .ok buf =>
    match attr with
    | .input => .ok (s8 (byte buf SCT_STATUS_TEMP) * 1000)
    | .lowest => .ok (s8 (byte buf SCT_STATUS_TEMP_LOWEST) * 1000)
    | .highest => .ok (s8 (byte buf SCT_STATUS_TEMP_HIGHEST) * 1000)
    | _ => .error .InvalidArg

/-- `satatemp_get_smarttemp`: re-issue SMART READ VALUES and decode; the
`attr` argument is ignored by the C function. -/
def satatemp_get_smarttemp (env : ReadEnv) (_attr : Metric) : Except DriverErr Int :=
  match env.smartValues with
  | .error _ => .error .CommandFailed
  | .ok buf => smart_decode buf

/-- `smarttemp_read_temp`: dispatch on `have_sct_temp`; the SCT branch is
the same conversion as `satatemp_get_scttemp`, the fallback branch calls
`smarttemp_read_smarttemp` ignoring the requested attribute. -/
def smarttemp_read_temp (env : ReadEnv) (st : CapabilityRecord) (attr : Metric) :
    Except DriverErr Int :=
  match st.mode with
  | .sct =>
    match env.sctStatus with
    | .error _ => .error .CommandFailed
    | .ok buf =>
      match attr with
      | .input => .ok (s8 (byte buf SCT_STATUS_TEMP) * 1000)
      | .lowest => .ok (s8 (byte buf SCT_STATUS_TEMP_LOWEST) * 1000)
      | .highest => .ok (s8 (byte buf SCT_STATUS_TEMP_HIGHEST) * 1000)
      | _ => .error .InvalidArg
  | .smart =>
    match env.smartValues with
    | .error _ => .error .CommandFailed
    | .ok buf => smart_decode buf

/-- `satatemp_read`: live metrics go through the probe-selected `get_temp`
strategy, the four limit metrics return the cached record fields. -/
def satatemp_read (env : ReadEnv) (st : CapabilityRecord) (attr : Metric) :
    Except DriverErr Int :=
  match attr with
  | .input | .lowest | .highest =>
    match st.mode with
    | .sct => satatemp_get_scttemp env attr
    | .smart => satatemp_get_smarttemp env attr
  | .lcrit => .ok st.temp_lcrit
  | .min => .ok st.temp_min
  | .max => .ok st.temp_max
  | .crit => .ok st.temp_crit

/-- `smarttemp_read`. -/
def smarttemp_read (env : ReadEnv) (st : CapabilityRecord) (attr : Metric) :
    Except DriverErr Int :=
  match attr with
  | .input | .lowest | .highest => smarttemp_read_temp env st attr
  | .lcrit => .ok st.temp_lcrit
  | .min => .ok st.temp_min
  | .max => .ok st.temp_max
  | .crit => .ok st.temp_crit

/-- `satatemp_is_visible` restricted to the temp channel: input is always
readable, every optional metric only when its flag was set at probe time. -/
def satatemp_is_visible (st : CapabilityRecord) : Metric → Bool
  | .input => true
  | .lowest => st.have_temp_lowest
  | .highest => st.have_temp_highest
  | .min => st.have_temp_min
  | .max => st.have_temp_max
  | .lcrit => st.have_temp_lcrit
  | .crit => st.have_temp_crit

/-- `smarttemp_is_visible` (textually identical to the satatemp version). -/
def smarttemp_is_visible (st : CapabilityRecord) : Metric → Bool
  | .input => true
  | .lowest => st.have_temp_lowest
  | .highest => st.have_temp_highest
  | .min => st.have_temp_min
  | .max => st.have_temp_max
  | .lcrit => st.have_temp_lcrit
  | .crit => st.have_temp_crit

/-- Modelled from the spec: the hwmon framework (an external collaborator,
not part of this repository) creates a readable sysfs attribute only for
metrics whose `is_visible` callback grants read access, so a request for a
hidden metric fails without ever invoking the driver's `read` callback;
the spec's error taxonomy names that failure `UnsupportedAttribute`.  This
is the read operation a consumer of the registered device observes. -/
def satatemp_hwmon_read (env : ReadEnv) (st : CapabilityRecord) (attr : Metric) :
    Except DriverErr Int :=
  if satatemp_is_visible st attr then satatemp_read env st attr
  else .error .UnsupportedAttribute

/-- Modelled from the spec: hwmon-gated read for the smarttemp revision
(see `satatemp_hwmon_read`). -/
def smarttemp_hwmon_read (env : ReadEnv) (st : CapabilityRecord) (attr : Metric) :
    Except DriverErr Int :=
  if smarttemp_is_visible st attr then smarttemp_read env st attr
  else .error .UnsupportedAttribute

/-! ## DeviceProbe -/

/-- Commands a probe can issue, in the order they reach the device.  The
VPD fetch (`scsi_get_vpd_page`, satatemp only) is a device command too. -/
inductive Cmd where
  | getVpd
  | identify
  | readSctStatus
  | writeDataTableReq
  | readDataTable
  | readSmartValues
deriving DecidableEq, Repr

/-- Outcome of satatemp's VPD page-0x89 sanity checks.  The string compare
and the `ata_id_*` helpers live in `linux/ata.h`, outside this repository,
so their verdicts are carried as booleans: `valid` is the
`"linux   libata"` origin / `ATA_CMD_ID_ATA` check, `have_sct` is IDENTIFY
word 206 bit 0 (`ata_id_sct_supported`), `have_sct_data_table` is word 206
bit 5 (`ata_id_sct_data_tables`). -/
structure VpdInfo where
  valid : Bool
  is_ata : Bool
  is_sata : Bool
  have_sct : Bool
  have_sct_data_table : Bool
deriving DecidableEq, Repr

/-- Device-side responses available to a probe. -/
structure ProbeEnv where
  inquiry : Option (List Nat)
  identify : Except Unit (Nat → Nat)
  vpd : Except Unit VpdInfo
  sctStatus : Except Unit (Nat → Nat)
  writeLog : Except Unit Unit
  dataTable : Except Unit (Nat → Nat)
  smartValues : Except Unit (Nat → Nat)

/-- The `strncmp(&inquiry[8], "ATA     ", 8) == 0` vendor check. -/
def vendorIsAta (inq : List Nat) : Bool :=
  (inq.drop 8).take 8 == [0x41, 0x54, 0x41, 0x20, 0x20, 0x20, 0x20, 0x20]

/-- Probe-time decode of the SCT status page (`satatemp.c:315-325`,
`smarttemp.c:273-283`): versions other than 2/3 or a sentinel current
temperature leave the record untouched; otherwise SCT mode is selected and
the lowest/highest flags are gated independently by the sentinel. -/
def sctStatusScan (buf : Nat → Nat) : CapabilityRecord :=
  let version := byte buf 1 * 256 + byte buf 0
  if version ≠ 2 ∧ version ≠ 3 then initRecord
  else if byte buf SCT_STATUS_TEMP = INVALID_TEMP then initRecord
  else
    { initRecord with
      mode := .sct,
      have_temp_lowest := byte buf SCT_STATUS_TEMP_LOWEST != INVALID_TEMP,
      have_temp_highest := byte buf SCT_STATUS_TEMP_HIGHEST != INVALID_TEMP }

/-- smarttemp's SCT-status phase: skipped entirely when IDENTIFY bit 0 is
clear; a failed READ LOG or a rejected page leaves the zero record. -/
def sctStatusStep (env : ProbeEnv) (have_sct_status : Bool) :
    CapabilityRecord × List Cmd :=
  if have_sct_status then
    match env.sctStatus with
    | .error _ => (initRecord, [Cmd.readSctStatus])
    | .ok buf => (sctStatusScan buf, [Cmd.readSctStatus])
  else (initRecord, [])

/-- The data-table phase shared by both revisions: WRITE LOG the request
descriptor, READ LOG 0xe1, apply the four limit bytes; either command
failing jumps to `skip_sct_data` leaving the record untouched. -/
def dataTableStep (env : ProbeEnv) (st : CapabilityRecord) :
    CapabilityRecord × List Cmd :=
  match env.writeLog with
  | .error _ => (st, [Cmd.writeDataTableReq])
  | .ok _ =>
    match env.dataTable with
    | .error _ => (st, [Cmd.writeDataTableReq, Cmd.readDataTable])
    | .ok dbuf => (applyDataTable dbuf st, [Cmd.writeDataTableReq, Cmd.readDataTable])

/-- smarttemp's `skip_sct` tail: `return smarttemp_read_smarttemp(st, &temp)`.
The record — including a possibly already-true `have_sct_temp` — is kept
as-is; only the success of the SMART read decides the probe's verdict. -/
def smartFallbackFinish (env : ProbeEnv) (st : CapabilityRecord) :
    Except DriverErr CapabilityRecord :=
  match env.smartValues with
  | .error _ => .error .CommandFailed
  | .ok buf =>
    match smart_decode buf with
    | .ok _ => .ok st
    | .error e => .error e

/-- satatemp's `skip_sct` tail: `st->get_temp = satatemp_get_smarttemp`
forces fallback mode before the trial SMART read. -/
def satFallbackFinish (env : ProbeEnv) (st : CapabilityRecord) :
    Except DriverErr CapabilityRecord :=
  match env.smartValues with
  | .error _ => .error .CommandFailed
  | .ok buf =>
    match smart_decode buf with
    | .ok _ => .ok { st with mode := .smart }
    | .error e => .error e

/-- `smarttemp_identify_features` (`smarttemp.c:250-321`).  Note two goto
quirks kept faithfully: when IDENTIFY bit 5 (data tables) is clear the code
jumps to `skip_sct` — past the `have_sct_temp` success return — so the
SMART fallback read runs even when SCT temperature worked; and when bit 0
(status log) is clear but bit 5 is set, the data-table phase still runs. -/
def smarttemp_identify_features (env : ProbeEnv) :
    Except DriverErr CapabilityRecord × List Cmd :=
  match env.identify with
  | .error _ =>
    (smartFallbackFinish env initRecord, [Cmd.identify, Cmd.readSmartValues])
  | .ok idbuf =>
    let have_sct_data_table := (byte idbuf 412).testBit 5
    let have_sct_status := (byte idbuf 412).testBit 0
    let s1 := sctStatusStep env have_sct_status
    if !have_sct_data_table then
      (smartFallbackFinish env s1.1, Cmd.identify :: s1.2 ++ [Cmd.readSmartValues])
    else
      let s2 := dataTableStep env s1.1
      if s2.1.mode = TempMode.sct then
        (.ok s2.1, Cmd.identify :: s1.2 ++ s2.2)
      else
        (smartFallbackFinish env s2.1,
          Cmd.identify :: s1.2 ++ s2.2 ++ [Cmd.readSmartValues])

/-- `smarttemp_add`'s probe sequence: `smarttemp_identify_ata` (cached
inquiry checks, no device command) and then `smarttemp_identify_features`. -/
def smarttemp_probe (env : ProbeEnv) : Except DriverErr CapabilityRecord × List Cmd :=
  match env.inquiry with
  | none => (.error .NotADevice, [])
  | some inq =>
    if inq.length < 16 then (.error .NotADevice, [])
    else if !vendorIsAta inq then (.error .NotADevice, [])
    else smarttemp_identify_features env

/-- `satatemp_identify` (`satatemp.c:259-365`).  The inquiry checks come
before the VPD fetch; every `goto skip_sct` lands on the fallback tail.
Kept faithfully: when SCT status succeeded but data tables are
unsupported, the jump to `skip_sct` switches the device to fallback mode
while the already-set lowest/highest flags survive. -/
def satatemp_identify (env : ProbeEnv) : Except DriverErr CapabilityRecord × List Cmd :=
  match env.inquiry with
  | none => (.error .NotADevice, [])
  | some inq =>
    if inq.length < 16 then (.error .NotADevice, [])
    else if !vendorIsAta inq then (.error .NotADevice, [])
    else
      match env.vpd with
      | .error _ => (.error .CommandFailed, [Cmd.getVpd])
      | .ok v =>
        if !v.valid then (.error .NotADevice, [Cmd.getVpd])
        else if !v.is_ata || !v.is_sata then (.error .NotADevice, [Cmd.getVpd])
        else if !v.have_sct then
          (satFallbackFinish env initRecord, [Cmd.getVpd, Cmd.readSmartValues])
        else
          match env.sctStatus with
          | .error _ =>
            (satFallbackFinish env initRecord,
              [Cmd.getVpd, Cmd.readSctStatus, Cmd.readSmartValues])
          | .ok buf =>
            let st1 := sctStatusScan buf
            if st1.mode = TempMode.smart then
              (satFallbackFinish env initRecord,
                [Cmd.getVpd, Cmd.readSctStatus, Cmd.readSmartValues])
            else if !v.have_sct_data_table then
              (satFallbackFinish env st1,
                [Cmd.getVpd, Cmd.readSctStatus, Cmd.readSmartValues])
            else
              let s2 := dataTableStep env st1
              (.ok { s2.1 with mode := .sct },
                [Cmd.getVpd, Cmd.readSctStatus] ++ s2.2)

/-! ## Concrete devices and pages used as test vectors -/

/-- A cached SCSI inquiry whose vendor field (bytes 8..15) is `"ATA     "`. -/
def inqAta : List Nat := [0, 0, 0, 0, 0, 0, 0, 0, 0x41, 0x54, 0x41, 0x20, 0x20, 0x20, 0x20, 0x20]

/-- SCT status page: version 2, current temperature 45, lowest 20, highest 50. -/
def sctPage45 : Nat → Nat := fun i =>
  if i = 0 then 2 else if i = 200 then 45 else if i = 201 then 20
  else if i = 202 then 50 else 0

/-- An SCT status page whose every byte is the 0x80 sentinel (version is
0x8080, but the live read path never looks at the version). -/
def page80 : Nat → Nat := fun _ => 0x80

/-- A checksum-valid SMART attribute page with a single attribute: id 194,
raw byte 40 (record 0: id at offset 2, raw at offset 7; offset 511 fixes
the byte sum to a multiple of 256). -/
def smartPage194 : Nat → Nat := fun i =>
  if i = 2 then 194 else if i = 7 then 40 else if i = 511 then 22 else 0

/-- A SMART page whose 512-byte sum is 1 mod 256: checksum invalid. -/
def smartPageBad : Nat → Nat := fun i => if i = 0 then 1 else 0

/-- Checksum-valid page with attribute 190 (raw 10) in record 0 and
attribute 194 (raw 42) in record 1: 194 appears after 190. -/
def bufC4 : Nat → Nat := fun i =>
  if i = 2 then 190 else if i = 7 then 10 else if i = 14 then 194
  else if i = 19 then 42 else if i = 511 then 76 else 0

/-- Checksum-valid page with two 190 records (record 0 raw 5, record 2
raw 7) and no 194: the later 190 must win. -/
def bufC9A : Nat → Nat := fun i =>
  if i = 2 then 190 else if i = 7 then 5 else if i = 26 then 190
  else if i = 31 then 7 else if i = 511 then 120 else 0

/-- Checksum-valid page with two 194 records (record 0 raw 42, record 1
raw 99): the first 194 must win. -/
def bufC9B : Nat → Nat := fun i =>
  if i = 2 then 194 else if i = 7 then 42 else if i = 14 then 194
  else if i = 19 then 99 else if i = 511 then 239 else 0

/-- IDENTIFY page with word-206 bit 5 (data tables) set and bit 0 (status
log) clear. -/
def idPageBit5 : Nat → Nat := fun i => if i = 412 then 0x20 else 0

/-- Data-table page with limit bytes `{0x50, 0x80, 0x80, 0x80}` at offsets
6..9: only the max limit (80 degrees) is valid. -/
def dtPage50 : Nat → Nat := fun i =>
  if i = 6 then 0x50 else if i = 7 then 0x80 else if i = 8 then 0x80
  else if i = 9 then 0x80 else 0

/-- Data-table page with limit bytes `{0x7F, 0x80, 0x10, 0x80}` at offsets
6..9, the example from the spec. -/
def dtPage7f : Nat → Nat := fun i =>
  if i = 6 then 0x7f else if i = 7 then 0x80 else if i = 8 then 0x10
  else if i = 9 then 0x80 else 0

/-- satatemp device: SCT supported but no data tables, SCT status page
valid with all three temperatures present, SMART fallback table valid.
The probe ends in fallback mode with lowest/highest flags still set. -/
def envC2 : ProbeEnv :=
  { inquiry := some inqAta, identify := .error (),
    vpd := .ok ⟨true, true, true, true, false⟩,
    sctStatus := .ok sctPage45, writeLog := .error (), dataTable := .error (),
    smartValues := .ok smartPage194 }

/-- The capability record `satatemp_identify envC2` produces. -/
def stC2 : CapabilityRecord :=
  { mode := .smart, have_temp_lowest := true, have_temp_highest := true }

/-- Read-time responses for the `envC2` device. -/
def renvC2 : ReadEnv := ⟨.ok sctPage45, .ok smartPage194⟩

/-- Read environment in which every command fails (cached metrics need no
command). -/
def renvNull : ReadEnv := ⟨.error (), .error ()⟩

/-- smarttemp device: IDENTIFY succeeds with data-table bit set but
status-log bit clear; the data-table sequence succeeds with one valid
limit; the SMART fallback read succeeds. -/
def envC7 : ProbeEnv :=
  { inquiry := some inqAta, identify := .ok idPageBit5, vpd := .error (),
    sctStatus := .error (), writeLog := .ok (), dataTable := .ok dtPage50,
    smartValues := .ok smartPage194 }

/-- The capability record `smarttemp_probe envC7` produces: fallback mode
with `have_temp_max` set from the data table. -/
def stC7 : CapabilityRecord :=
  { mode := .smart, have_temp_max := true,
    temp_min := -128000, temp_max := 80000, temp_lcrit := -128000,
    temp_crit := -128000 }

/-- smarttemp device whose IDENTIFY command fails: pure SMART fallback. -/
def envFB : ProbeEnv :=
  { inquiry := some inqAta, identify := .error (), vpd := .error (),
    sctStatus := .error (), writeLog := .error (), dataTable := .error (),
    smartValues := .ok smartPage194 }

/-- satatemp device with a valid VPD page reporting no SCT support. -/
def envSatFB : ProbeEnv :=
  { inquiry := some inqAta, identify := .error (),
    vpd := .ok ⟨true, true, true, false, false⟩,
    sctStatus := .error (), writeLog := .error (), dataTable := .error (),
    smartValues := .ok smartPage194 }

/-- A device with no cached inquiry data at all. -/
def envNone : ProbeEnv :=
  { inquiry := none, identify := .error (), vpd := .error (),
    sctStatus := .error (), writeLog := .error (), dataTable := .error (),
    smartValues := .error () }

set_option maxRecDepth 10000

/-- If a fuelled scan window contains neither a 190 nor a 194 id, the scan
returns its accumulator unchanged. -/
theorem smartScanAux_skip (buf : Nat → Nat) :
    ∀ (n i : Nat) (acc : Option Nat),
      (∀ m, i ≤ m → m < i + n → attrId buf m ≠ 194 ∧ attrId buf m ≠ 190) →
      smartScanAux buf n i acc = acc := by
  intro n
  induction n with
  | zero => intro i acc _; rfl
  | succ n ih =>
    intro i acc h
    have h0 := h i (Nat.le_refl i) (by omega)
    simp only [smartScanAux, if_neg h0.1, if_neg h0.2]
    exact ih (i + 1) acc (fun m hm1 hm2 => h m (by omega) (by omega))

/-- The scan stops at the first record whose id is 194 and returns its raw
byte, whatever the accumulator holds. -/
theorem smartScanAux_first194 (buf : Nat → Nat) :
    ∀ (n i : Nat) (acc : Option Nat) (j : Nat),
      i ≤ j → j < i + n → attrId buf j = 194 →
      (∀ m, i ≤ m → m < j → attrId buf m ≠ 194) →
      smartScanAux buf n i acc = some (attrRaw buf j) := by
  intro n
  induction n with
  | zero => intro i acc j h1 h2 _ _; exfalso; omega
  | succ n ih =>
    intro i acc j hij hjn hj hfirst
    by_cases hi : attrId buf i = 194
    · have hji : j = i := by
        by_contra hne
        exact hfirst i (Nat.le_refl i) (by omega) hi
      subst hji
      simp only [smartScanAux, if_pos hi]
    · have hij' : i + 1 ≤ j := by
        rcases Nat.eq_or_lt_of_le hij with h | h
        · exact absurd (by rw [h]; exact hj) hi
        · omega
      simp only [smartScanAux, if_neg hi]
      by_cases hi190 : attrId buf i = 190
      · rw [if_pos hi190]
        exact ih (i + 1) _ j hij' (by omega) hj (fun m hm1 hm2 => hfirst m (by omega) hm2)
      · rw [if_neg hi190]
        exact ih (i + 1) acc j hij' (by omega) hj (fun m hm1 hm2 => hfirst m (by omega) hm2)

/-- With no 194 in the window, the scan returns the raw byte of the last
record whose id is 190. -/
theorem smartScanAux_last190 (buf : Nat → Nat) :
    ∀ (n i : Nat) (acc : Option Nat) (k : Nat),
      i ≤ k → k < i + n → attrId buf k = 190 →
      (∀ m, i ≤ m → m < i + n → attrId buf m ≠ 194) →
      (∀ m, k < m → m < i + n → attrId buf m ≠ 190) →
      smartScanAux buf n i acc = some (attrRaw buf k) := by
  intro n
  induction n with
  | zero => intro i acc k h1 h2 _ _ _; exfalso; omega
  | succ n ih =>
    intro i acc k hik hkn hk hno194 hlast
    have hi194 : attrId buf i ≠ 194 := hno194 i (Nat.le_refl i) (by omega)
    simp only [smartScanAux, if_neg hi194]
    by_cases hi190 : attrId buf i = 190
    · rw [if_pos hi190]
      by_cases hki : k = i
      · subst hki
        exact smartScanAux_skip buf n (k + 1) _
          (fun m hm1 hm2 => ⟨hno194 m (by omega) (by omega), hlast m (by omega) (by omega)⟩)
      · exact ih (i + 1) _ k (by omega) (by omega) hk
          (fun m h1 h2 => hno194 m (by omega) (by omega))
          (fun m h1 h2 => hlast m h1 (by omega))
    · rw [if_neg hi190]
      have hki : k ≠ i := fun h => hi190 (h ▸ hk)
      exact ih (i + 1) acc k (by omega) (by omega) hk
        (fun m h1 h2 => hno194 m (by omega) (by omega))
        (fun m h1 h2 => hlast m h1 (by omega))

/-- The probe-time SCT status decode either leaves the zero record or
selects SCT mode. -/
theorem sctStatusScan_cases (buf : Nat → Nat) :
    sctStatusScan buf = initRecord ∨ (sctStatusScan buf).mode = TempMode.sct := by
  simp only [sctStatusScan]
  split
  · exact Or.inl rfl
  · split
    · exact Or.inl rfl
    · exact Or.inr rfl

/-- The SCT status decode never touches the four limit flags. -/
theorem sctStatusScan_no_limits (buf : Nat → Nat) :
    (sctStatusScan buf).have_temp_min = false ∧ (sctStatusScan buf).have_temp_max = false ∧
    (sctStatusScan buf).have_temp_lcrit = false ∧ (sctStatusScan buf).have_temp_crit = false := by
  simp only [sctStatusScan]
  split
  · exact ⟨rfl, rfl, rfl, rfl⟩
  · split
    · exact ⟨rfl, rfl, rfl, rfl⟩
    · exact ⟨rfl, rfl, rfl, rfl⟩

/-- smarttemp's SCT phase also either leaves the zero record or selects
SCT mode. -/
theorem sctStatusStep_cases (env : ProbeEnv) (b : Bool) :
    (sctStatusStep env b).1 = initRecord ∨ (sctStatusStep env b).1.mode = TempMode.sct := by
  unfold sctStatusStep
  cases b with
  | false => exact Or.inl rfl
  | true =>
    cases h : env.sctStatus with
    | error e => exact Or.inl rfl
    | ok buf => simpa using sctStatusScan_cases buf

/-- The data-table phase never changes the mode or the lowest/highest flags. -/
theorem dataTableStep_preserves (env : ProbeEnv) (st : CapabilityRecord) :
    ((dataTableStep env st).1).mode = st.mode ∧
    ((dataTableStep env st).1).have_temp_lowest = st.have_temp_lowest ∧
    ((dataTableStep env st).1).have_temp_highest = st.have_temp_highest := by
  unfold dataTableStep
  cases env.writeLog with
  | error e => exact ⟨rfl, rfl, rfl⟩
  | ok u =>
    cases env.dataTable with
    | error e => exact ⟨rfl, rfl, rfl⟩
    | ok dbuf => exact ⟨rfl, rfl, rfl⟩

/-- A successful smarttemp fallback tail returns the record it was given. -/
theorem smartFallbackFinish_ok (env : ProbeEnv) (st st' : CapabilityRecord)
    (h : smartFallbackFinish env st = .ok st') : st' = st := by
  unfold smartFallbackFinish at h
  split at h
  · exact Except.noConfusion h
  · split at h
    · injection h with h; exact h.symm
    · exact Except.noConfusion h

/-- A successful satatemp fallback tail returns its record switched to
fallback mode. -/
theorem satFallbackFinish_ok (env : ProbeEnv) (st st' : CapabilityRecord)
    (h : satFallbackFinish env st = .ok st') : st' = { st with mode := .smart } := by
  unfold satFallbackFinish at h
  split at h
  · exact Except.noConfusion h
  · split at h
    · injection h with h; exact h.symm
    · exact Except.noConfusion h

/-- In the smarttemp revision, a device that finishes feature detection in
fallback mode never carries the SCT lowest/highest flags: those are only
assigned on the path that also sets `have_sct_temp`. -/
theorem smarttemp_features_fallback_flags (env : ProbeEnv) (st : CapabilityRecord)
    (tr : List Cmd) (h : smarttemp_identify_features env = (.ok st, tr))
    (hm : st.mode = TempMode.smart) :
    st.have_temp_lowest = false ∧ st.have_temp_highest = false := by
  simp only [smarttemp_identify_features] at h
  split at h
  · rw [Prod.mk.injEq] at h
    have hst := smartFallbackFinish_ok env initRecord st h.1
    subst hst; exact ⟨rfl, rfl⟩
  · rename_i idbuf heq
    split at h
    · rw [Prod.mk.injEq] at h
      have hst := smartFallbackFinish_ok env _ st h.1
      rcases sctStatusStep_cases env ((byte idbuf 412).testBit 0) with hc | hc
      · rw [hc] at hst; subst hst; exact ⟨rfl, rfl⟩
      · exfalso; rw [hst] at hm; rw [hm] at hc; exact absurd hc (by decide)
    · split at h
      · rename_i hcond
        rw [Prod.mk.injEq] at h
        exfalso
        have h1 : (dataTableStep env (sctStatusStep env ((byte idbuf 412).testBit 0)).1).1 = st := by
          injection h.1
        rw [h1] at hcond
        rw [hm] at hcond
        exact absurd hcond (by decide)
      · rename_i hcond
        rw [Prod.mk.injEq] at h
        have hst := smartFallbackFinish_ok env _ st h.1
        obtain ⟨hpm, hpl, hph⟩ :=
          dataTableStep_preserves env (sctStatusStep env ((byte idbuf 412).testBit 0)).1
        rcases sctStatusStep_cases env ((byte idbuf 412).testBit 0) with hc | hc
        · subst hst
          constructor
          · rw [hpl, hc]; rfl
          · rw [hph, hc]; rfl
        · exact absurd (hpm.trans hc) hcond

/-- Lift of `smarttemp_features_fallback_flags` through the full probe. -/
theorem smarttemp_probe_fallback_flags (env : ProbeEnv) (st : CapabilityRecord)
    (tr : List Cmd) (h : smarttemp_probe env = (.ok st, tr))
    (hm : st.mode = TempMode.smart) :
    st.have_temp_lowest = false ∧ st.have_temp_highest = false := by
  unfold smarttemp_probe at h
  split at h
  · rw [Prod.mk.injEq] at h; exact Except.noConfusion h.1
  · split at h
    · rw [Prod.mk.injEq] at h; exact Except.noConfusion h.1
    · split at h
      · rw [Prod.mk.injEq] at h; exact Except.noConfusion h.1
      · exact smarttemp_features_fallback_flags env st tr h hm

/-- In the satatemp revision, a device that finishes the probe in fallback
mode never carries the four limit flags: the data-table phase is only
reached on the path that ends in SCT mode. -/
theorem satatemp_fallback_no_limits (env : ProbeEnv) (st : CapabilityRecord)
    (tr : List Cmd) (h : satatemp_identify env = (.ok st, tr))
    (hm : st.mode = TempMode.smart) :
    st.have_temp_min = false ∧ st.have_temp_max = false ∧
    st.have_temp_lcrit = false ∧ st.have_temp_crit = false := by
  simp only [satatemp_identify] at h
  split at h
  · rw [Prod.mk.injEq] at h; exact Except.noConfusion h.1
  · split at h
    · rw [Prod.mk.injEq] at h; exact Except.noConfusion h.1
    · split at h
      · rw [Prod.mk.injEq] at h; exact Except.noConfusion h.1
      · split at h
        · rw [Prod.mk.injEq] at h; exact Except.noConfusion h.1
        · split at h
          · rw [Prod.mk.injEq] at h; exact Except.noConfusion h.1
          · split at h
            · rw [Prod.mk.injEq] at h; exact Except.noConfusion h.1
            · split at h
              · rw [Prod.mk.injEq] at h
                have hst := satFallbackFinish_ok env initRecord st h.1
                subst hst; exact ⟨rfl, rfl, rfl, rfl⟩
              · split at h
                · rw [Prod.mk.injEq] at h
                  have hst := satFallbackFinish_ok env initRecord st h.1
                  subst hst; exact ⟨rfl, rfl, rfl, rfl⟩
                · rename_i buf hbuf
                  split at h
                  · rw [Prod.mk.injEq] at h
                    have hst := satFallbackFinish_ok env initRecord st h.1
                    subst hst; exact ⟨rfl, rfl, rfl, rfl⟩
                  · split at h
                    · rw [Prod.mk.injEq] at h
                      have hst := satFallbackFinish_ok env (sctStatusScan buf) st h.1
                      obtain ⟨q1, q2, q3, q4⟩ := sctStatusScan_no_limits buf
                      subst hst
                      exact ⟨q1, q2, q3, q4⟩
                    · rw [Prod.mk.injEq] at h
                      exfalso
                      have h2 := h.1
                      injection h2 with h3
                      rw [← h3] at hm
                      simp at hm

/-- When the VPD page reports no SCT support, the satatemp probe never
issues the data-table WRITE LOG / READ LOG pair. -/
theorem satatemp_no_sct_no_datatable_cmds (env : ProbeEnv) (v : VpdInfo)
    (hv : env.vpd = .ok v) (hs : v.have_sct = false) :
    Cmd.writeDataTableReq ∉ (satatemp_identify env).2 ∧
    Cmd.readDataTable ∉ (satatemp_identify env).2 := by
  unfold satatemp_identify
  cases hi : env.inquiry with
  | none => simp
  | some inq =>
    simp only [hv]
    by_cases hlen : inq.length < 16
    · simp [hlen]
    · by_cases hven : vendorIsAta inq
      · rw [if_neg hlen, if_neg (by simp [hven])]
        by_cases hval : v.valid
        · by_cases hata : v.is_ata
          · by_cases hsata : v.is_sata
            · rw [if_neg (by simp [hval]), if_neg (by simp [hata, hsata]),
                  if_pos (by simp [hs])]
              simp
            · rw [if_neg (by simp [hval]), if_pos (by simp [hsata])]
              simp
          · rw [if_neg (by simp [hval]), if_pos (by simp [hata])]
            simp
        · rw [if_pos (by simp [hval])]
          simp
      · simp [hlen, hven]

/-- C1 (counterexample): a live SCT read of a status page carrying the
0x80 sentinel at the metric offset reports exactly -128000 millidegrees,
in both revisions — the claim that this never happens is false. -/
theorem c1_counterexample :
    byte page80 SCT_STATUS_TEMP = INVALID_TEMP ∧
    satatemp_get_scttemp ⟨.ok page80, .error ()⟩ .input = .ok (-128000) ∧
    satatemp_get_scttemp ⟨.ok page80, .error ()⟩ .lowest = .ok (-128000) ∧
    satatemp_get_scttemp ⟨.ok page80, .error ()⟩ .highest = .ok (-128000) ∧
    smarttemp_read_temp ⟨.ok page80, .error ()⟩ { mode := TempMode.sct } .input =
      .ok (-128000) := by
  exact ⟨rfl, rfl, rfl, rfl, rfl⟩

/-- C1 (amended): live SCT reads convert the raw byte at offsets
200/201/202 with the two's-complement cast and scale by 1000 with no
sentinel check at all; since `s8 0x80 = -128`, a sentinel byte is reported
as -128000.  Only the probe tests the sentinel. -/
theorem c1_amended :
    (∀ (buf : Nat → Nat) (sv : Except Unit (Nat → Nat)),
      satatemp_get_scttemp ⟨.ok buf, sv⟩ .input =
        .ok (s8 (byte buf SCT_STATUS_TEMP) * 1000) ∧
      satatemp_get_scttemp ⟨.ok buf, sv⟩ .lowest =
        .ok (s8 (byte buf SCT_STATUS_TEMP_LOWEST) * 1000) ∧
      satatemp_get_scttemp ⟨.ok buf, sv⟩ .highest =
        .ok (s8 (byte buf SCT_STATUS_TEMP_HIGHEST) * 1000) ∧
      smarttemp_read_temp ⟨.ok buf, sv⟩ { mode := TempMode.sct } .input =
        .ok (s8 (byte buf SCT_STATUS_TEMP) * 1000) ∧
      smarttemp_read_temp ⟨.ok buf, sv⟩ { mode := TempMode.sct } .lowest =
        .ok (s8 (byte buf SCT_STATUS_TEMP_LOWEST) * 1000) ∧
      smarttemp_read_temp ⟨.ok buf, sv⟩ { mode := TempMode.sct } .highest =
        .ok (s8 (byte buf SCT_STATUS_TEMP_HIGHEST) * 1000)) ∧
    s8 INVALID_TEMP = -128 := by
  exact ⟨fun buf sv => ⟨rfl, rfl, rfl, rfl, rfl, rfl⟩, by decide⟩

/-- C2 (counterexample): the satatemp probe can finish in SmartFallback
mode with `have_temp_lowest`/`have_temp_highest` still set (SCT status
valid, data tables unsupported, `goto skip_sct`); a Lowest or Highest read
then succeeds with the SMART input temperature instead of failing with
UnsupportedAttribute. -/
theorem c2_counterexample :
    (satatemp_identify envC2).1 = .ok stC2 ∧
    stC2.mode = TempMode.smart ∧
    stC2.have_temp_lowest = true ∧
    satatemp_hwmon_read renvC2 stC2 .lowest = .ok 40000 ∧
    satatemp_hwmon_read renvC2 stC2 .highest = .ok 40000 := by
  exact ⟨by decide, rfl, rfl, by decide, by decide⟩

/-- C2 (amended): in the smarttemp revision every fallback-mode device
rejects Lowest/Highest reads with UnsupportedAttribute, because the probe
leaves both flags false; in the satatemp revision this holds exactly when
the corresponding flag is false (the probe can leave it true, see the
counterexample). -/
theorem c2_amended :
    (∀ (env : ProbeEnv) (st : CapabilityRecord) (tr : List Cmd) (renv : ReadEnv),
        smarttemp_probe env = (.ok st, tr) → st.mode = TempMode.smart →
        smarttemp_hwmon_read renv st .lowest = .error .UnsupportedAttribute ∧
        smarttemp_hwmon_read renv st .highest = .error .UnsupportedAttribute) ∧
    (∀ (renv : ReadEnv) (st : CapabilityRecord),
        st.mode = TempMode.smart → st.have_temp_lowest = false →
        satatemp_hwmon_read renv st .lowest = .error .UnsupportedAttribute) ∧
    (∀ (renv : ReadEnv) (st : CapabilityRecord),
        st.mode = TempMode.smart → st.have_temp_highest = false →
        satatemp_hwmon_read renv st .highest = .error .UnsupportedAttribute) := by
  refine ⟨?_, ?_, ?_⟩
  · intro env st tr renv hp hm
    obtain ⟨hl, hh⟩ := smarttemp_probe_fallback_flags env st tr hp hm
    constructor
    · simp [smarttemp_hwmon_read, smarttemp_is_visible, hl]
    · simp [smarttemp_hwmon_read, smarttemp_is_visible, hh]
  · intro renv st _ hl
    simp [satatemp_hwmon_read, satatemp_is_visible, hl]
  · intro renv st _ hh
    simp [satatemp_hwmon_read, satatemp_is_visible, hh]

/-- C2 (witness): a concrete smarttemp fallback device and the zero record
realize the amended claim. -/
theorem c2_amended_witness :
    smarttemp_hwmon_read renvNull initRecord .lowest = .error .UnsupportedAttribute ∧
    smarttemp_hwmon_read renvNull initRecord .highest = .error .UnsupportedAttribute ∧
    satatemp_hwmon_read renvNull initRecord .lowest = .error .UnsupportedAttribute ∧
    satatemp_hwmon_read renvNull initRecord .highest = .error .UnsupportedAttribute := by
  obtain ⟨h1, h2⟩ := c2_amended.1 envFB initRecord
    [Cmd.identify, Cmd.readSmartValues] renvNull (by decide) rfl
  exact ⟨h1, h2, c2_amended.2.1 renvNull initRecord rfl rfl,
    c2_amended.2.2 renvNull initRecord rfl rfl⟩

/-- C3: for Min/Max/Lcrit/Crit, the hwmon-gated read returns the cached
CapabilityRecord value exactly when the corresponding flag is true and
fails with UnsupportedAttribute when it is false, in both revisions. -/
theorem c3_cached_limits :
    ∀ (env : ReadEnv) (st : CapabilityRecord),
      satatemp_hwmon_read env st .min =
        (if st.have_temp_min then .ok st.temp_min else .error .UnsupportedAttribute) ∧
      satatemp_hwmon_read env st .max =
        (if st.have_temp_max then .ok st.temp_max else .error .UnsupportedAttribute) ∧
      satatemp_hwmon_read env st .lcrit =
        (if st.have_temp_lcrit then .ok st.temp_lcrit else .error .UnsupportedAttribute) ∧
      satatemp_hwmon_read env st .crit =
        (if st.have_temp_crit then .ok st.temp_crit else .error .UnsupportedAttribute) ∧
      smarttemp_hwmon_read env st .min =
        (if st.have_temp_min then .ok st.temp_min else .error .UnsupportedAttribute) ∧
      smarttemp_hwmon_read env st .max =
        (if st.have_temp_max then .ok st.temp_max else .error .UnsupportedAttribute) ∧
      smarttemp_hwmon_read env st .lcrit =
        (if st.have_temp_lcrit then .ok st.temp_lcrit else .error .UnsupportedAttribute) ∧
      smarttemp_hwmon_read env st .crit =
        (if st.have_temp_crit then .ok st.temp_crit else .error .UnsupportedAttribute) := by
  intro env st
  exact ⟨rfl, rfl, rfl, rfl, rfl, rfl, rfl, rfl⟩

/-- C4: on a checksum-valid SMART table that contains a 194 attribute
(uniformly carrying raw byte r194) and a 190 attribute anywhere among the
30 scanned records, the decoded input temperature is r194 * 1000 — 194
wins whether it appears before or after 190. -/
theorem c4_priority_194 (buf : Nat → Nat) (r194 r190 : Nat)
    (hcs : smart_checksum buf = 0)
    (h194 : ∃ j, j < 30 ∧ attrId buf j = 194)
    (hall : ∀ j, j < 30 → attrId buf j = 194 → attrRaw buf j = r194)
    (_h190 : ∃ k, k < 30 ∧ attrId buf k = 190 ∧ attrRaw buf k = r190) :
    smart_decode buf = .ok ((r194 : Int) * 1000) := by
  classical
  obtain ⟨j, hj30, hj⟩ := h194
  have hex : ∃ n, attrId buf n = 194 := ⟨j, hj⟩
  have hj0 : attrId buf (Nat.find hex) = 194 := Nat.find_spec hex
  have hj0min : ∀ m, m < Nat.find hex → attrId buf m ≠ 194 :=
    fun m hm => Nat.find_min hex hm
  have hj0le : Nat.find hex ≤ j := Nat.find_min' hex hj
  have hscan : smartScanAux buf 30 0 none = some (attrRaw buf (Nat.find hex)) :=
    smartScanAux_first194 buf 30 0 none (Nat.find hex) (Nat.zero_le _) (by omega)
      hj0 (fun m _ hm => hj0min m hm)
  have hraw : attrRaw buf (Nat.find hex) = r194 := hall (Nat.find hex) (by omega) hj0
  unfold smart_decode smartScan
  rw [if_pos hcs, hscan, hraw]

/-- C4 (witness): 190 raw 10 in record 0, 194 raw 42 in record 1 — the
later 194 still decides and the input decodes to 42000. -/
theorem c4_priority_194_witness :
    smart_checksum bufC4 = 0 ∧ smart_decode bufC4 = .ok 42000 := by
  constructor
  · decide
  · have h := c4_priority_194 bufC4 42 10 (by decide) ⟨1, by decide⟩ (by decide)
      ⟨0, by decide⟩
    norm_num at h
    exact h

/-- C5: a SMART attribute page whose 512-byte sum is nonzero mod 256
always decodes to ChecksumError, whatever its attribute contents. -/
theorem c5_checksum_error (buf : Nat → Nat) (h : smart_checksum buf ≠ 0) :
    smart_decode buf = .error .ChecksumError := by
  unfold smart_decode
  rw [if_neg h]

/-- C5 (witness): a page with byte sum 1 fails with ChecksumError. -/
theorem c5_checksum_error_witness :
    smart_checksum smartPageBad ≠ 0 ∧
    smart_decode smartPageBad = .error .ChecksumError :=
  ⟨by decide, c5_checksum_error smartPageBad (by decide)⟩

/-- C6: each of the four data-table limit bytes (offsets 6 max, 7 crit,
8 min, 9 lcrit) is gated independently by the 0x80 sentinel — the flag is
true iff the byte differs from 0x80 — and the cached value is the
sign-converted byte scaled by 1000; the spec's example bytes
`{0x7F, 0x80, 0x10, 0x80}` yield max = 127000, crit absent, min = 16000,
lcrit absent. -/
theorem c6_datatable_limits :
    (∀ (dbuf : Nat → Nat) (st : CapabilityRecord),
      ((applyDataTable dbuf st).have_temp_max = true ↔ byte dbuf 6 ≠ INVALID_TEMP) ∧
      ((applyDataTable dbuf st).have_temp_crit = true ↔ byte dbuf 7 ≠ INVALID_TEMP) ∧
      ((applyDataTable dbuf st).have_temp_min = true ↔ byte dbuf 8 ≠ INVALID_TEMP) ∧
      ((applyDataTable dbuf st).have_temp_lcrit = true ↔ byte dbuf 9 ≠ INVALID_TEMP) ∧
      (applyDataTable dbuf st).temp_max = s8 (byte dbuf 6) * 1000 ∧
      (applyDataTable dbuf st).temp_crit = s8 (byte dbuf 7) * 1000 ∧
      (applyDataTable dbuf st).temp_min = s8 (byte dbuf 8) * 1000 ∧
      (applyDataTable dbuf st).temp_lcrit = s8 (byte dbuf 9) * 1000) ∧
    (applyDataTable dtPage7f initRecord).have_temp_max = true ∧
    (applyDataTable dtPage7f initRecord).temp_max = 127000 ∧
    (applyDataTable dtPage7f initRecord).have_temp_crit = false ∧
    (applyDataTable dtPage7f initRecord).have_temp_min = true ∧
    (applyDataTable dtPage7f initRecord).temp_min = 16000 ∧
    (applyDataTable dtPage7f initRecord).have_temp_lcrit = false := by
  constructor
  · intro dbuf st
    refine ⟨?_, ?_, ?_, ?_, rfl, rfl, rfl, rfl⟩ <;>
      simp [applyDataTable, bne_iff_ne]
  · exact ⟨by decide, by decide, by decide, by decide, by decide, by decide⟩

/-- C7 (counterexample): a smarttemp device whose IDENTIFY word 206 has
the data-table bit set but the status-log bit clear still gets the
data-table sequence issued; the probe finishes in SmartFallback mode with
`have_temp_max = true` — not all six optional flags are false, and the
data table was read despite the unsupported status log. -/
theorem c7_counterexample :
    (smarttemp_probe envC7).1 = .ok stC7 ∧
    stC7.mode = TempMode.smart ∧
    stC7.have_temp_max = true ∧
    (smarttemp_probe envC7).2 =
      [Cmd.identify, Cmd.writeDataTableReq, Cmd.readDataTable, Cmd.readSmartValues] := by
  exact ⟨by decide, rfl, rfl, by decide⟩

/-- C7 (amended): a fallback-mode smarttemp device never carries the SCT
lowest/highest flags, a fallback-mode satatemp device never carries the
four limit flags, and the satatemp probe issues no data-table command when
the VPD page reports SCT unsupported.  (smarttemp can read the data table
without status-log support, and satatemp can keep lowest/highest in
fallback mode — exactly the quirks the counterexamples exhibit.) -/
theorem c7_amended :
    (∀ (env : ProbeEnv) (st : CapabilityRecord) (tr : List Cmd),
        smarttemp_probe env = (.ok st, tr) → st.mode = TempMode.smart →
        st.have_temp_lowest = false ∧ st.have_temp_highest = false) ∧
    (∀ (env : ProbeEnv) (st : CapabilityRecord) (tr : List Cmd),
        satatemp_identify env = (.ok st, tr) → st.mode = TempMode.smart →
        st.have_temp_min = false ∧ st.have_temp_max = false ∧
        st.have_temp_lcrit = false ∧ st.have_temp_crit = false) ∧
    (∀ (env : ProbeEnv) (v : VpdInfo),
        env.vpd = .ok v → v.have_sct = false →
        Cmd.writeDataTableReq ∉ (satatemp_identify env).2 ∧
        Cmd.readDataTable ∉ (satatemp_identify env).2) :=
  ⟨smarttemp_probe_fallback_flags, satatemp_fallback_no_limits,
    satatemp_no_sct_no_datatable_cmds⟩

/-- C7 (witness): concrete fallback devices realize all three parts of the
amended claim. -/
theorem c7_amended_witness :
    initRecord.have_temp_lowest = false ∧
    initRecord.have_temp_min = false ∧
    Cmd.writeDataTableReq ∉ (satatemp_identify envSatFB).2 := by
  refine ⟨(c7_amended.1 envFB initRecord [Cmd.identify, Cmd.readSmartValues]
      (by decide) rfl).1,
    (c7_amended.2.1 envSatFB initRecord [Cmd.getVpd, Cmd.readSmartValues]
      (by decide) rfl).1,
    (c7_amended.2.2 envSatFB ⟨true, true, true, false, false⟩ rfl rfl).1⟩

/-- C8 (counterexample): the READ LOG command block for log address 0xe0
carries the SMART READ LOG subcommand 0xd5 in its feature register, not
0xe0 as the claim states — 0xe0 goes to the LBA-low register instead. -/
theorem c8_counterexample :
    (smarttemp_ata_command SMART_READ_LOG SCT_STATUS_REQ_ADDR).feature ≠
      SCT_STATUS_REQ_ADDR ∧
    (satatemp_ata_command SMART_READ_LOG SCT_STATUS_REQ_ADDR).feature ≠
      SCT_STATUS_REQ_ADDR ∧
    (smarttemp_ata_command SMART_READ_LOG SCT_STATUS_REQ_ADDR).feature =
      SMART_READ_LOG ∧
    (satatemp_ata_command SMART_READ_LOG SCT_STATUS_REQ_ADDR).feature =
      SMART_READ_LOG := by
  exact ⟨by decide, by decide, by decide, by decide⟩

/-- C8 (amended): a SMART READ LOG command for log address 0xe0 has
data-in direction, sector count 1, feature register 0xd5 (the READ LOG
subcommand) and LBA-low register 0xe0 (the log address); every SMART WRITE
LOG command has data-out direction — in both revisions. -/
theorem c8_amended :
    (smarttemp_ata_command SMART_READ_LOG SCT_STATUS_REQ_ADDR).dir = DmaDir.fromDevice ∧
    (smarttemp_ata_command SMART_READ_LOG SCT_STATUS_REQ_ADDR).sector_count = 1 ∧
    (smarttemp_ata_command SMART_READ_LOG SCT_STATUS_REQ_ADDR).feature = SMART_READ_LOG ∧
    (smarttemp_ata_command SMART_READ_LOG SCT_STATUS_REQ_ADDR).lba_low = SCT_STATUS_REQ_ADDR ∧
    (satatemp_ata_command SMART_READ_LOG SCT_STATUS_REQ_ADDR).dir = DmaDir.fromDevice ∧
    (satatemp_ata_command SMART_READ_LOG SCT_STATUS_REQ_ADDR).sector_count = 1 ∧
    (satatemp_ata_command SMART_READ_LOG SCT_STATUS_REQ_ADDR).feature = SMART_READ_LOG ∧
    (satatemp_ata_command SMART_READ_LOG SCT_STATUS_REQ_ADDR).lba_low = SCT_STATUS_REQ_ADDR ∧
    (∀ select : Nat, (smarttemp_ata_command SMART_WRITE_LOG select).dir = DmaDir.toDevice) ∧
    (∀ select : Nat, (satatemp_ata_command SMART_WRITE_LOG select).dir = DmaDir.toDevice) := by
  refine ⟨by decide, by decide, by decide, by decide, by decide, by decide, by decide,
    by decide, fun select => rfl, fun select => rfl⟩

/-- C9: on a checksum-valid table with no 194 among the 30 scanned records
and several 190 records, the last 190 record decides (later duplicates
overwrite earlier ones); with several 194 records, the first one decides. -/
theorem c9_scan_order (bufA bufB : Nat → Nat) (kLast kPrev jFirst jSecond : Nat)
    (hAcs : smart_checksum bufA = 0)
    (hAno194 : ∀ m, m < 30 → attrId bufA m ≠ 194)
    (hAk : kLast < 30) (hAid : attrId bufA kLast = 190)
    (_hAprev : kPrev < kLast) (_hAidp : attrId bufA kPrev = 190)
    (hAlast : ∀ m, m < 30 → kLast < m → attrId bufA m ≠ 190)
    (hBcs : smart_checksum bufB = 0)
    (hBj : jFirst < 30) (hBid : attrId bufB jFirst = 194)
    (hBfirst : ∀ m, m < jFirst → attrId bufB m ≠ 194)
    (_hB2a : jFirst < jSecond) (_hB2b : jSecond < 30) (_hB2c : attrId bufB jSecond = 194) :
    smart_decode bufA = .ok ((attrRaw bufA kLast : Int) * 1000) ∧
    smart_decode bufB = .ok ((attrRaw bufB jFirst : Int) * 1000) := by
  constructor
  · have hscan : smartScanAux bufA 30 0 none = some (attrRaw bufA kLast) :=
      smartScanAux_last190 bufA 30 0 none kLast (Nat.zero_le _) (by omega) hAid
        (fun m _ hm => hAno194 m (by omega))
        (fun m h1 h2 => hAlast m (by omega) h1)
    unfold smart_decode smartScan
    rw [if_pos hAcs, hscan]
  · have hscan : smartScanAux bufB 30 0 none = some (attrRaw bufB jFirst) :=
      smartScanAux_first194 bufB 30 0 none jFirst (Nat.zero_le _) (by omega) hBid
        (fun m _ hm => hBfirst m hm)
    unfold smart_decode smartScan
    rw [if_pos hBcs, hscan]

/-- C9 (witness): two 190 records (raws 5 and 7, no 194) decode to 7000 —
the later record wins; two 194 records (raws 42 and 99) decode to 42000 —
the first record wins. -/
theorem c9_scan_order_witness :
    smart_decode bufC9A = .ok 7000 ∧ smart_decode bufC9B = .ok 42000 := by
  have h := c9_scan_order bufC9A bufC9B 2 0 0 1 (by decide) (by decide) (by decide)
    (by decide) (by decide) (by decide) (by decide) (by decide) (by decide)
    (by decide) (by decide) (by decide) (by decide) (by decide)
  rw [show attrRaw bufC9A 2 = 7 from by decide,
    show attrRaw bufC9B 0 = 42 from by decide] at h
  norm_num at h
  exact h

/-- C10: a device whose cached inquiry data is absent or shorter than 16
bytes is rejected with NotADevice before any command is issued — the
command trace is empty — exactly as for a vendor-string mismatch, in both
revisions. -/
theorem c10_reject_before_commands (env : ProbeEnv)
    (h : env.inquiry = none ∨
      ∃ inq, env.inquiry = some inq ∧ (inq.length < 16 ∨ vendorIsAta inq = false)) :
    smarttemp_probe env = (.error .NotADevice, []) ∧
    satatemp_identify env = (.error .NotADevice, []) := by
  rcases h with h | ⟨inq, hinq, hbad⟩
  · constructor
    · unfold smarttemp_probe; rw [h]
    · unfold satatemp_identify; rw [h]
  · rcases hbad with hlen | hven
    · constructor
      · unfold smarttemp_probe; rw [hinq]; simp [hlen]
      · unfold satatemp_identify; rw [hinq]; simp [hlen]
    · constructor
      · unfold smarttemp_probe; rw [hinq]
        by_cases hlen : inq.length < 16
        · simp [hlen]
        · simp [hlen, hven]
      · unfold satatemp_identify; rw [hinq]
        by_cases hlen : inq.length < 16
        · simp [hlen]
        · simp [hlen, hven]

/-- C10 (witness): a device with no cached inquiry data is rejected with
an empty command trace by both probes. -/
theorem c10_reject_before_commands_witness :
    smarttemp_probe envNone = (.error .NotADevice, []) ∧
    satatemp_identify envNone = (.error .NotADevice, []) :=
  c10_reject_before_commands envNone (Or.inl rfl)
